import Mathlib

/-!
Verification of the PayPal payment module
(src/server/paymentProviders/paypal/payment.js) of the opencollective-api
excerpt. JavaScript numbers carrying integer cent amounts are modelled as
integers; decimal amount strings are modelled by their parsed rational
value; the special values produced by JavaScript division by zero are
modelled explicitly. Network and datastore effects are modelled by
explicit environments and call/event traces.
-/

/-- Result of a JavaScript floating-point division on amounts: either a
finite value or one of the special values produced by a zero divisor. -/
inductive JsNum where
  | num (q : ℚ)
  | posInf
  | negInf
  | nan
deriving DecidableEq, Repr

/-- JavaScript division of two integer amounts, as in the source expression
order.totalAmount / amountFromPayPalInCents: a zero divisor yields
Infinity, -Infinity or NaN instead of an error. -/
def jsDivZ (a b : ℤ) : JsNum :=
  if b = 0 then
    if a = 0 then JsNum.nan else if 0 < a then JsNum.posInf else JsNum.negInf
  else JsNum.num ((a : ℚ) / (b : ℚ))

/-- JavaScript string interpolation of a possibly-undefined string value,
as in the template rendering of errorData.message. -/
def jsStringOfOpt : Option String → String
  | none => "undefined"
  | some s => s

/-- Static configuration read by the URL builder
(config.paypal.payment.environment). -/
structure PaypalConfig where
  environment : Option String
deriving DecidableEq, Repr

/-- Base URL selection of paypalUrl: exact string match against sandbox,
anything else selects production. -/
def paypalBaseUrl (cfg : PaypalConfig) : String :=
  if cfg.environment = some "sandbox" then "https://api.sandbox.paypal.com/v1/"
  else "https://api.paypal.com/v1/"

/-- The String.prototype.startsWith check of the source, modelled on the
character sequences. -/
def jsStartsWith (s p : String) : Bool := p.data.isPrefixOf s.data

/-- The URL builder paypalUrl: rejects absolute paths, otherwise returns the
environment base concatenated with the path. The WHATWG URL round-trip
of the source (new URL(baseUrl + path).toString()) is modelled as the
identity on the concatenation. -/
def paypalUrl (cfg : PaypalConfig) (path : String) : Except String String :=
  if jsStartsWith path "/" then Except.error "Please don\x27t use absolute paths"
  else Except.ok (paypalBaseUrl cfg ++ path)

/-- Alphabet of standard base64 used by Buffer.toString for basic auth. -/
def base64Alphabet : List Char :=
  [ 'A', 'B', 'C', 'D', 'E', 'F', 'G', 'H', 'I', 'J', 'K', 'L', 'M',
    'N', 'O', 'P', 'Q', 'R', 'S', 'T', 'U', 'V', 'W', 'X', 'Y', 'Z',
    'a', 'b', 'c', 'd', 'e', 'f', 'g', 'h', 'i', 'j', 'k', 'l', 'm',
    'n', 'o', 'p', 'q', 'r', 's', 't', 'u', 'v', 'w', 'x', 'y', 'z',
    '0', '1', '2', '3', '4', '5', '6', '7', '8', '9', '+', '/' ]

/-- Character of the base64 alphabet at a 6-bit index. -/
def b64Char (n : Nat) : Char := base64Alphabet.getD n 'A'

/-- Base64 encoding of a byte sequence with padding, as produced by
Buffer.from(str).toString of the source. -/
def base64EncodeBytes : List Nat → String
  | [] => ""
  | [b1] =>
      String.mk [b64Char (b1 / 4), b64Char (b1 % 4 * 16), '=', '=']
  | [b1, b2] =>
      String.mk [b64Char (b1 / 4), b64Char (b1 % 4 * 16 + b2 / 16),
                 b64Char (b2 % 16 * 4), '=']
  | b1 :: b2 :: b3 :: rest =>
      String.mk [b64Char (b1 / 4), b64Char (b1 % 4 * 16 + b2 / 16),
                 b64Char (b2 % 16 * 4 + b3 / 64), b64Char (b3 % 64)]
        ++ base64EncodeBytes rest

/-- UTF-8 encoding of one character as byte values. -/
def utf8EncodeCharNat (c : Char) : List Nat :=
  let n := c.toNat
  if n < 128 then [n]
  else if n < 2048 then [192 + n / 64, 128 + n % 64]
  else if n < 65536 then [224 + n / 4096, 128 + n / 64 % 64, 128 + n % 64]
  else [240 + n / 262144, 128 + n / 4096 % 64, 128 + n / 64 % 64, 128 + n % 64]

/-- UTF-8 byte values of a string. -/
def utf8Bytes (s : String) : List Nat :=
  s.data.foldr (fun c acc => utf8EncodeCharNat c ++ acc) []

/-- Base64 encoding of the UTF-8 bytes of a string, the model of
Buffer.from(str).toString of the source. -/
def base64Encode (s : String) : String :=
  base64EncodeBytes (utf8Bytes s)


/-- A ConnectedAccount row as used by the credential lookup: service tag,
soft-deletion marker, creation time, and the PayPal client id and secret
token (empty string models a missing/falsy field). -/
structure ConnectedAccount where
  service : String
  deletedAt : Option ℤ
  createdAt : ℤ
  clientId : String
  token : String
deriving DecidableEq, Repr

/-- The receiving host collective with its linked provider accounts. -/
structure HostCollective where
  connectedAccounts : List ConnectedAccount
deriving DecidableEq, Repr

/-- Insertion into a list kept in descending createdAt order (stable). -/
def insertByCreatedAtDesc (a : ConnectedAccount) :
    List ConnectedAccount → List ConnectedAccount
  | [] => [a]
  | b :: rest =>
      if b.createdAt ≥ a.createdAt then b :: insertByCreatedAtDesc a rest
      else a :: b :: rest

/-- Stable sort by createdAt descending, the order clause of the query. -/
def sortByCreatedAtDesc : List ConnectedAccount → List ConnectedAccount
  | [] => []
  | a :: rest => insertByCreatedAtDesc a (sortByCreatedAtDesc rest)

/-- The getConnectedAccounts query of paypalRequest: accounts filtered to
service paypal and deletedAt null, ordered by createdAt descending. -/
def getConnectedAccounts (host : HostCollective) : List ConnectedAccount :=
  sortByCreatedAtDesc
    (host.connectedAccounts.filter fun a =>
      a.service == "paypal" && a.deletedAt.isNone)

/-- The credential check of paypalRequest, the negation of the source
condition (missing account, falsy clientId, or falsy token). -/
def credentialUsable : Option ConnectedAccount → Bool
  | none => false
  | some p => !p.clientId.isEmpty && !p.token.isEmpty

/-- JSON body of the OAuth token endpoint response. -/
structure TokenBody where
  access_token : Option String
deriving DecidableEq, Repr

/-- The nested transaction_fee object of a sale. -/
structure TransactionFee where
  value : Option ℚ
deriving DecidableEq, Repr

/-- A sale inside a related resource; the fee object may be absent. -/
structure Sale where
  transaction_fee : Option TransactionFee
deriving DecidableEq, Repr

/-- A related resource of a capture transaction; the sale may be absent. -/
structure RelatedResource where
  sale : Option Sale
deriving DecidableEq, Repr

/-- The amount object of a capture line item; the decimal total string is
modelled by its parsed rational value. -/
structure PayPalAmount where
  total : ℚ
  currency : String
deriving DecidableEq, Repr

/-- One line item of the transactions array of a capture payload. -/
structure PayPalTransactionItem where
  amount : PayPalAmount
  related_resources : List RelatedResource
deriving DecidableEq, Repr

/-- A JSON body returned by the payments API: an optional human-readable
message (present on error bodies) and the capture line items. -/
structure PayPalBody where
  message : Option String
  transactions : List PayPalTransactionItem
deriving DecidableEq, Repr

/-- The lodash get of the source over the optional path
related_resources.0.sale.transaction_fee.value: none when any level of
nesting is absent. -/
def getTransactionFee (t : PayPalTransactionItem) : Option ℚ :=
  match t.related_resources.head? with
  | none => none
  | some r =>
      match r.sale with
      | none => none
      | some s =>
          match s.transaction_fee with
          | none => none
          | some f => f.value

/-- An HTTP response as seen through fetch: the 2xx flag and the outcome of
parsing the body as JSON (error means the json() call rejects). -/
structure HttpJsonResponse (β : Type) where
  ok : Bool
  body : Except String β
deriving Repr

/-- The OAuth token request assembled by retrieveOAuthToken. -/
structure OAuthRequest where
  url : String
  method : String
  body : String
  authorization : String
deriving DecidableEq, Repr

/-- Environment feeding the two outbound fetch calls of one gateway
request: an error value models the fetch promise itself rejecting
(network failure). -/
structure PaypalEnv where
  cfg : PaypalConfig
  tokenFetch : Except String (HttpJsonResponse TokenBody)
  apiFetch : Except String (HttpJsonResponse PayPalBody)

/-- The token exchanger retrieveOAuthToken: builds the Basic-auth
client-credentials request and returns the access_token field of the
parsed response body. The source never consults the HTTP status of the
response. Returns the assembled request together with the outcome. -/
def retrieveOAuthToken (clientId clientSecret : String) (env : PaypalEnv) :
    OAuthRequest × Except String (Option String) :=
  let authStr := clientId ++ ":" ++ clientSecret
  let req : OAuthRequest :=
    { url := paypalBaseUrl env.cfg ++ "oauth2/token"
      method := "post"
      body := "grant_type=client_credentials"
      authorization := "Basic " ++ base64Encode authStr }
  let result :=
    match env.tokenFetch with
    | Except.error e => Except.error e
    | Except.ok resp =>
        match resp.body with
        | Except.error e => Except.error e
        | Except.ok jsonOutput => Except.ok jsonOutput.access_token
  (req, result)

/-- An outbound network call recorded by the gateway trace. -/
inductive NetworkCall where
  | oauthTokenExchange (req : OAuthRequest)
  | post (url : String) (body : String) (authorization : String)
deriving DecidableEq, Repr

/-- What logger.error receives in the failure branch of paypalRequest:
either the parsed JSON error body or the body-parse failure. -/
inductive ErrorData where
  | parsed (body : PayPalBody)
  | parseFailure (e : String)
deriving DecidableEq, Repr

/-- A log line emitted by paypalRequest on failure: the label, the raw
response and the error data. -/
structure GatewayLog where
  label : String
  response : HttpJsonResponse PayPalBody
  errorData : ErrorData
deriving Repr

/-- Outcome of one paypalRequest call: the returned or thrown value, the
outbound network calls performed, and the log lines emitted. -/
structure GatewayOutcome where
  result : Except String PayPalBody
  calls : List NetworkCall
  logs : List GatewayLog

/-- The provider gateway paypalRequest: resolves the most recent
non-deleted paypal credential of the host, fails before any network call
when it is missing or incomplete, otherwise exchanges the credential for
a bearer token and issues the authenticated POST, classifying the
response by its HTTP status. -/
def paypalRequest (urlPath : String) (body : String) (host : HostCollective)
    (env : PaypalEnv) : GatewayOutcome :=
  let paypal := (getConnectedAccounts host).head?
  match paypal with
  | none =>
      { result := Except.error "Host doesn\x27t support PayPal payments."
        calls := [], logs := [] }
  | some p =>
      if p.clientId.isEmpty || p.token.isEmpty then
        { result := Except.error "Host doesn\x27t support PayPal payments."
          calls := [], logs := [] }
      else
        match paypalUrl env.cfg urlPath with
        | Except.error e => { result := Except.error e, calls := [], logs := [] }
        | Except.ok url =>
            let oauth := retrieveOAuthToken p.clientId p.token env
            let calls1 := [NetworkCall.oauthTokenExchange oauth.fst]
            match oauth.snd with
            | Except.error e =>
                { result := Except.error e, calls := calls1, logs := [] }
            | Except.ok token =>
                let auth := "Bearer " ++ jsStringOfOpt token
                let calls2 := calls1 ++ [NetworkCall.post url body auth]
                match env.apiFetch with
                | Except.error e =>
                    { result := Except.error e, calls := calls2, logs := [] }
                | Except.ok result0 =>
                    if result0.ok then
                      match result0.body with
                      | Except.ok json =>
                          { result := Except.ok json, calls := calls2, logs := [] }
                      | Except.error e =>
                          { result := Except.error e, calls := calls2, logs := [] }
                    else
                      match result0.body with
                      | Except.ok errorData =>
                          { result := Except.error ("PayPal payment rejected" ++
                              ": " ++ jsStringOfOpt errorData.message)
                            calls := calls2
                            logs := [{ label := "PayPal payment failed"
                                       response := result0
                                       errorData := ErrorData.parsed errorData }] }
                      | Except.error e =>
                          { result := Except.error "PayPal payment rejected"
                            calls := calls2
                            logs := [{ label := "PayPal payment failed"
                                       response := result0
                                       errorData := ErrorData.parseFailure e }] }

/-- Provider-specific data of a payment method: the remote payment and
payer identifiers. -/
structure PaymentMethodData where
  paymentID : String
  payerID : String
deriving DecidableEq, Repr

/-- A payment method row: id, provider data, confirmation timestamp. -/
structure PaymentMethod where
  id : ℤ
  data : PaymentMethodData
  confirmedAt : Option ℤ
deriving DecidableEq, Repr

/-- The collective receiving the order, with its host fee percentage and
its fiscal host (the getHostCollective lookup of the source, whose
datastore implementation is outside the excerpt, is modelled as field
access). -/
structure Collective where
  id : ℤ
  hostFeePercent : ℚ
  host : HostCollective
deriving DecidableEq, Repr

/-- The creating user of an order. -/
structure OrderUser where
  id : ℤ
deriving DecidableEq, Repr

/-- Optional metadata of an order (order.data), carrying the fees-on-top
flag. -/
structure OrderData where
  isFeesOnTop : Option Bool
deriving DecidableEq, Repr

/-- An Order row with the fields read by the module. platformFeePolicy
holds the platform fee the order policy prescribes (the computation
behind getPlatformFee is outside the excerpt). -/
structure Order where
  id : ℤ
  totalAmount : ℤ
  currency : String
  taxAmount : ℤ
  description : String
  FromCollectiveId : ℤ
  collective : Collective
  createdByUser : OrderUser
  paymentMethod : PaymentMethod
  data : Option OrderData
  processedAt : Option ℤ
  platformFeePolicy : ℤ
deriving DecidableEq, Repr

/-- Modelled from the spec: floatAmountToCents of src/server/lib/math is
not in the excerpt; section 4.5 step 3 requires converting decimal major
units to integer minor units with round-to-nearest-cent (JavaScript
Math.round, half toward positive infinity). -/
def floatAmountToCents (amount : ℚ) : ℤ := ⌊amount * 100 + 1 / 2⌋

/-- Modelled from the spec: calcFee of src/server/lib/payments is not in
the excerpt; section 4.5 step 4 computes the host fee as the rounded
percentage of the captured amount. -/
def calcFee (amount : ℤ) (feePercent : ℚ) : ℤ :=
  ⌊(amount : ℚ) * feePercent / 100 + 1 / 2⌋

/-- Modelled from the spec: getPlatformFee of src/server/lib/payments is
not in the excerpt; section 4.5 step 5 takes the platform fee from the
Order fee policy, waived when the order metadata flags fees-on-top. -/
def getPlatformFee (o : Order) : ℤ :=
  if o.data.bind OrderData.isFeesOnTop = some true then 0
  else o.platformFeePolicy

/-- The transaction type constant CREDIT. -/
def CREDIT : String := "CREDIT"

/-- The data blob stored on the transaction: the raw capture payload
merged with the fees-on-top flag. -/
structure TransactionData where
  paymentInfo : PayPalBody
  isFeesOnTop : Option Bool
deriving DecidableEq, Repr

/-- The transaction record assembled by createTransaction. -/
structure TransactionRecord where
  type : String
  OrderId : ℤ
  amount : ℤ
  currency : String
  hostCurrency : String
  amountInHostCurrency : ℤ
  hostCurrencyFxRate : JsNum
  hostFeeInHostCurrency : ℤ
  platformFeeInHostCurrency : ℤ
  paymentProcessorFeeInHostCurrency : ℤ
  taxAmount : ℤ
  description : String
  data : TransactionData
deriving DecidableEq, Repr

/-- The payload handed to Transaction.createFromPayload. -/
structure TransactionPayload where
  CreatedByUserId : ℤ
  FromCollectiveId : ℤ
  CollectiveId : ℤ
  PaymentMethodId : ℤ
  transaction : TransactionRecord
deriving DecidableEq, Repr

/-- The transaction builder createTransaction: reads the first capture
line item (a missing item is the TypeError the source would raise),
parses amounts and the optional processor fee, and assembles the
payload. Persistence by createFromPayload is modelled in processOrder. -/
def createTransaction (order : Order) (paymentInfo : PayPalBody) :
    Except String TransactionPayload :=
  match paymentInfo.transactions.head? with
  | none => Except.error "TypeError: cannot read amount of undefined"
  | some transaction =>
      let amountFromPayPal : ℚ := transaction.amount.total
      let paypalFee : ℚ := (getTransactionFee transaction).getD 0
      let amountFromPayPalInCents := floatAmountToCents amountFromPayPal
      let paypalFeeInCents := floatAmountToCents paypalFee
      let currencyFromPayPal := transaction.amount.currency
      Except.ok
        { CreatedByUserId := order.createdByUser.id
          FromCollectiveId := order.FromCollectiveId
          CollectiveId := order.collective.id
          PaymentMethodId := order.paymentMethod.id
          transaction :=
            { type := CREDIT
              OrderId := order.id
              amount := order.totalAmount
              currency := order.currency
              hostCurrency := currencyFromPayPal
              amountInHostCurrency := amountFromPayPalInCents
              hostCurrencyFxRate := jsDivZ order.totalAmount amountFromPayPalInCents
              hostFeeInHostCurrency :=
                calcFee amountFromPayPalInCents order.collective.hostFeePercent
              platformFeeInHostCurrency := getPlatformFee order
              paymentProcessorFeeInHostCurrency := paypalFeeInCents
              taxAmount := order.taxAmount
              description := order.description
              data := { paymentInfo := paymentInfo
                        isFeesOnTop := order.data.bind OrderData.isFeesOnTop } } }

/-- The execute-payment wrapper: issues the capture request for the
pending remote payment of the order through the gateway, against the
order collective fiscal host. -/
def executePayment (order : Order) (env : PaypalEnv) : GatewayOutcome :=
  paypalRequest
    ("payments/payment/" ++ order.paymentMethod.data.paymentID ++ "/execute")
    ("\x7b\"payer_id\":\"" ++ order.paymentMethod.data.payerID ++ "\"\x7d")
    order.collective.host env

/-- An event of the order finalizer trace: each constructor records the
corresponding awaited call being issued, in the sequence the source
awaits them (whether the call then resolves or rejects is recorded
separately in the outcome flags). -/
inductive OrderEvent where
  | executePaymentCall
  | persistTransaction
  | setProcessedAt
  | setConfirmedAt
deriving DecidableEq, Repr

/-- Environment of one processOrder run: the gateway environment of the
capture call and the datastore outcomes of the three awaited writes,
each of which can reject independently (createFromPayload, the
order.update of processedAt and the paymentMethod.update of
confirmedAt). -/
structure ProcessEnv where
  paypal : PaypalEnv
  persistOk : Bool
  orderUpdateOk : Bool
  paymentMethodUpdateOk : Bool

/-- Outcome of one processOrder run: returned or thrown value, ordered
trace of the awaited calls issued, whether each timestamp write took
effect, and the transactions persisted during the run. -/
structure ProcessOutcome where
  result : Except String TransactionPayload
  events : List OrderEvent
  processedAtSet : Bool
  confirmedAtSet : Bool
  createdTransactions : List TransactionPayload

/-- The order finalizer processOrder: awaits the capture, builds and
persists the transaction, then marks the order processed and the payment
method confirmed, returning the persisted transaction. Each await that
rejects stops the sequence there; rejections after createFromPayload
succeeded leave the persisted transaction behind with the corresponding
timestamps unset (the partial-completion state). -/
def processOrder (order : Order) (env : ProcessEnv) : ProcessOutcome :=
  let gw := executePayment order env.paypal
  match gw.result with
  | Except.error e =>
      { result := Except.error e
        events := [OrderEvent.executePaymentCall]
        processedAtSet := false, confirmedAtSet := false
        createdTransactions := [] }
  | Except.ok paymentInfo =>
      match createTransaction order paymentInfo with
      | Except.error e =>
          { result := Except.error e
            events := [OrderEvent.executePaymentCall]
            processedAtSet := false, confirmedAtSet := false
            createdTransactions := [] }
      | Except.ok payload =>
          if env.persistOk then
            if env.orderUpdateOk then
              if env.paymentMethodUpdateOk then
                { result := Except.ok payload
                  events := [OrderEvent.executePaymentCall,
                             OrderEvent.persistTransaction,
                             OrderEvent.setProcessedAt,
                             OrderEvent.setConfirmedAt]
                  processedAtSet := true, confirmedAtSet := true
                  createdTransactions := [payload] }
              else
                { result := Except.error "paymentMethod.update rejected"
                  events := [OrderEvent.executePaymentCall,
                             OrderEvent.persistTransaction,
                             OrderEvent.setProcessedAt,
                             OrderEvent.setConfirmedAt]
                  processedAtSet := true, confirmedAtSet := false
                  createdTransactions := [payload] }
            else
              { result := Except.error "order.update rejected"
                events := [OrderEvent.executePaymentCall,
                           OrderEvent.persistTransaction,
                           OrderEvent.setProcessedAt]
                processedAtSet := false, confirmedAtSet := false
                createdTransactions := [payload] }
          else
            { result := Except.error "createFromPayload rejected"
              events := [OrderEvent.executePaymentCall,
                         OrderEvent.persistTransaction]
              processedAtSet := false, confirmedAtSet := false
              createdTransactions := [] }

/-- A usable PayPal credential example. -/
def accountEx : ConnectedAccount :=
  { service := "paypal", deletedAt := none, createdAt := 10
    clientId := "client-id", token := "client-secret" }

/-- A host with one usable credential. -/
def hostEx : HostCollective := { connectedAccounts := [accountEx] }

/-- The collective of the example order: host fee 5 percent. -/
def collectiveEx : Collective :=
  { id := 7, hostFeePercent := 5, host := hostEx }

/-- An order of 1000 cents USD. -/
def orderEx : Order :=
  { id := 42, totalAmount := 1000, currency := "USD", taxAmount := 0
    description := "monthly donation", FromCollectiveId := 3
    collective := collectiveEx, createdByUser := { id := 11 }
    paymentMethod := { id := 9, data := { paymentID := "PAY-1", payerID := "PR-1" }
                       confirmedAt := none }
    data := none, processedAt := none, platformFeePolicy := 0 }

/-- A capture line item of 10.00 USD with no related resources. -/
def payloadItemEx : PayPalTransactionItem :=
  { amount := { total := 10, currency := "USD" }, related_resources := [] }

/-- A capture payload whose first line item totals 10.00 USD. -/
def payloadEx : PayPalBody :=
  { message := none, transactions := [payloadItemEx] }

/-- A capture line item with total 0.00. -/
def payloadZeroItemEx : PayPalTransactionItem :=
  { amount := { total := 0, currency := "USD" }, related_resources := [] }

/-- A capture payload whose first line item totals 0.00: the zero-captured
amount case. -/
def payloadZeroEx : PayPalBody :=
  { message := none, transactions := [payloadZeroItemEx] }

/-- Production configuration (environment unset). -/
def cfgProdEx : PaypalConfig := { environment := none }

/-- A token endpoint response: 2xx with a bearer token. -/
def tokenRespOkEx : HttpJsonResponse TokenBody :=
  { ok := true, body := Except.ok { access_token := some "tok-123" } }

/-- A gateway environment where both fetches succeed and the capture
returns the 10.00 USD payload. -/
def envOkEx : PaypalEnv :=
  { cfg := cfgProdEx
    tokenFetch := Except.ok tokenRespOkEx
    apiFetch := Except.ok { ok := true, body := Except.ok payloadEx } }

/-- A finalizer environment where the provider and the datastore accept. -/
def processEnvOkEx : ProcessEnv :=
  { paypal := envOkEx, persistOk := true
    orderUpdateOk := true, paymentMethodUpdateOk := true }

/-- The example order already marked processed. -/
def orderProcessedEx : Order := { orderEx with processedAt := some 0 }

/-- A host whose only PayPal credential is soft-deleted. -/
def hostDeletedEx : HostCollective :=
  { connectedAccounts :=
      [{ service := "paypal", deletedAt := some 5, createdAt := 1
         clientId := "id", token := "sec" }] }

/-- A token endpoint response with a non-2xx status whose JSON error body
carries no access_token. -/
def envTokenNon2xxEx : PaypalEnv :=
  { cfg := cfgProdEx
    tokenFetch := Except.ok { ok := false, body := Except.ok { access_token := none } }
    apiFetch := Except.error "unreached" }

/-- A payments API response with a non-2xx status and a parseable JSON
error body. -/
def apiRespDeclinedEx : HttpJsonResponse PayPalBody :=
  { ok := false
    body := Except.ok { message := some "INSTRUMENT_DECLINED", transactions := [] } }

/-- A gateway environment where the token exchange succeeds and the
payment call is rejected with a JSON error body. -/
def envApiDeclinedEx : PaypalEnv :=
  { cfg := cfgProdEx
    tokenFetch := Except.ok tokenRespOkEx
    apiFetch := Except.ok apiRespDeclinedEx }

/-- C1: for every order and capture payload whose first line item has a
positive captured amount in cents, createTransaction assembles the record
with amountInHostCurrency the captured cents and hostCurrencyFxRate the
finite quotient totalAmount / capturedCents, and that rate multiplied by
amountInHostCurrency gives back the order totalAmount exactly (hence
within a tolerance of one minor unit). -/
theorem createTransaction_fx_consistent (order : Order) (paymentInfo : PayPalBody)
    (tx : PayPalTransactionItem) (htx : paymentInfo.transactions.head? = some tx)
    (hpos : 0 < floatAmountToCents tx.amount.total) :
    ∃ p, createTransaction order paymentInfo = Except.ok p ∧
      p.transaction.amountInHostCurrency = floatAmountToCents tx.amount.total ∧
      p.transaction.hostCurrencyFxRate =
        JsNum.num ((order.totalAmount : ℚ) / (floatAmountToCents tx.amount.total : ℚ)) ∧
      ((order.totalAmount : ℚ) / (floatAmountToCents tx.amount.total : ℚ)) *
        ((floatAmountToCents tx.amount.total : ℤ) : ℚ) = (order.totalAmount : ℚ) := by
  have hne : floatAmountToCents tx.amount.total ≠ 0 := hpos.ne'
  have hneq : ((floatAmountToCents tx.amount.total : ℤ) : ℚ) ≠ 0 :=
    Int.cast_ne_zero.mpr hne
  simp only [createTransaction, htx]
  refine ⟨_, rfl, rfl, ?_, ?_⟩
  · simp only [jsDivZ, if_neg hne]
  · exact div_mul_cancel₀ _ hneq

/-- C1 witness: the consistency theorem instantiated at the example order
and the 10.00 USD capture payload. -/
theorem createTransaction_fx_consistent_witness :
    0 < floatAmountToCents payloadItemEx.amount.total ∧
    ∃ p, createTransaction orderEx payloadEx = Except.ok p ∧
      p.transaction.amountInHostCurrency = floatAmountToCents payloadItemEx.amount.total ∧
      p.transaction.hostCurrencyFxRate =
        JsNum.num ((orderEx.totalAmount : ℚ) /
          (floatAmountToCents payloadItemEx.amount.total : ℚ)) ∧
      ((orderEx.totalAmount : ℚ) / (floatAmountToCents payloadItemEx.amount.total : ℚ)) *
        ((floatAmountToCents payloadItemEx.amount.total : ℤ) : ℚ) =
        (orderEx.totalAmount : ℚ) :=
  ⟨by norm_num [floatAmountToCents, payloadItemEx],
   createTransaction_fx_consistent orderEx payloadEx payloadItemEx rfl
     (by norm_num [floatAmountToCents, payloadItemEx])⟩

/-- C2: evaluation at the failing input: for a capture payload whose first
line item totals 0.00, createTransaction does not fail; it assembles the
record with amountInHostCurrency 0 and hostCurrencyFxRate Infinity (the
JavaScript division by zero silently coerced) and hands it to
persistence. -/
theorem createTransaction_zero_capture_not_rejected :
    (createTransaction orderEx payloadZeroEx).map (fun p =>
      (p.transaction.amountInHostCurrency, p.transaction.hostCurrencyFxRate)) =
      Except.ok (0, JsNum.posInf) := by
  have h0 : floatAmountToCents 0 = 0 := by norm_num [floatAmountToCents]
  simp only [createTransaction, payloadZeroEx, payloadZeroItemEx, List.head?,
    getTransactionFee, Option.getD, Except.map, h0, jsDivZ]
  norm_num [orderEx]

/-- C3: for every order and capture payload whose first line item lacks the
nested processor-fee path at any level of nesting, createTransaction
succeeds (no error for the missing intermediate objects) and sets
paymentProcessorFeeInHostCurrency to 0. -/
theorem createTransaction_missing_fee_defaults_zero (order : Order)
    (paymentInfo : PayPalBody) (tx : PayPalTransactionItem)
    (htx : paymentInfo.transactions.head? = some tx)
    (hfee : getTransactionFee tx = none) :
    ∃ p, createTransaction order paymentInfo = Except.ok p ∧
      p.transaction.paymentProcessorFeeInHostCurrency = 0 := by
  simp only [createTransaction, htx, hfee, Option.getD_none]
  refine ⟨_, rfl, ?_⟩
  norm_num [floatAmountToCents]

/-- C3 witness: the defaulting theorem instantiated at the example payload
whose line item has no related resources at all. -/
theorem createTransaction_missing_fee_defaults_zero_witness :
    payloadEx.transactions.head? = some payloadItemEx ∧
    getTransactionFee payloadItemEx = none ∧
    ∃ p, createTransaction orderEx payloadEx = Except.ok p ∧
      p.transaction.paymentProcessorFeeInHostCurrency = 0 :=
  ⟨rfl, rfl,
   createTransaction_missing_fee_defaults_zero orderEx payloadEx payloadItemEx rfl rfl⟩

/-- C4: evaluation at the failing input: invoking processOrder on an order
whose processedAt is already set runs the whole pipeline again and
persists another transaction; the source has no idempotence guard. -/
theorem processOrder_already_processed_creates_again :
    orderProcessedEx.processedAt = some 0 ∧
    (processOrder orderProcessedEx processEnvOkEx).result.isOk = true ∧
    (processOrder orderProcessedEx processEnvOkEx).createdTransactions.length = 1 :=
  ⟨rfl, rfl, rfl⟩

/-- C5: for every host whose paypal-service non-deleted credential set is
empty, or whose most recently created such credential lacks a client id
or secret token, every gateway call fails with the configuration error
before any network call: no OAuth token exchange and no payment POST is
recorded. -/
theorem paypalRequest_unusable_credential_no_network (urlPath body : String)
    (host : HostCollective) (env : PaypalEnv)
    (h : (host.connectedAccounts.filter fun a =>
            a.service == "paypal" && a.deletedAt.isNone) = [] ∨
         credentialUsable (getConnectedAccounts host).head? = false) :
    (paypalRequest urlPath body host env).result =
      Except.error "Host doesn\x27t support PayPal payments." ∧
    (paypalRequest urlPath body host env).calls = [] := by
  have h2 : credentialUsable (getConnectedAccounts host).head? = false := by
    rcases h with h | h
    · simp [getConnectedAccounts, h, sortByCreatedAtDesc, credentialUsable]
    · exact h
  cases hh : (getConnectedAccounts host).head? with
  | none => simp [paypalRequest, hh]
  | some p =>
      rw [hh] at h2
      simp only [credentialUsable] at h2
      have hor : (p.clientId.isEmpty || p.token.isEmpty) = true := by
        cases hc : p.clientId.isEmpty <;> cases ht : p.token.isEmpty <;>
          simp_all
      simp [paypalRequest, hh, hor]

/-- C5 witness: the short-circuit theorem instantiated at a host whose only
PayPal credential is soft-deleted. -/
theorem paypalRequest_unusable_credential_no_network_witness :
    (paypalRequest "payments/payment" "req" hostDeletedEx envOkEx).result =
      Except.error "Host doesn\x27t support PayPal payments." ∧
    (paypalRequest "payments/payment" "req" hostDeletedEx envOkEx).calls = [] :=
  paypalRequest_unusable_credential_no_network "payments/payment" "req"
    hostDeletedEx envOkEx (Or.inl rfl)

/-- C6: once the payment POST is reached (usable credential, relative path,
token exchange resolved), a non-2xx response always makes paypalRequest
raise: a parseable JSON error body contributes its message to the raised
error and is logged together with the raw response; a body that fails to
parse leaves the base message and the parse failure is logged with the
raw response; no value is returned. A 2xx response returns the parsed
JSON body. -/
theorem paypalRequest_error_classification (urlPath body : String)
    (host : HostCollective) (env : PaypalEnv) (p : ConnectedAccount)
    (tokResp : HttpJsonResponse TokenBody) (tokBody : TokenBody)
    (apiResp : HttpJsonResponse PayPalBody)
    (hp : (getConnectedAccounts host).head? = some p)
    (hc : p.clientId.isEmpty = false) (ht : p.token.isEmpty = false)
    (hpath : jsStartsWith urlPath "/" = false)
    (htok : env.tokenFetch = Except.ok tokResp)
    (htokB : tokResp.body = Except.ok tokBody)
    (hapi : env.apiFetch = Except.ok apiResp) :
    (apiResp.ok = false → ∀ b, apiResp.body = Except.ok b →
      (paypalRequest urlPath body host env).result =
        Except.error ("PayPal payment rejected" ++ ": " ++ jsStringOfOpt b.message) ∧
      (paypalRequest urlPath body host env).logs =
        [{ label := "PayPal payment failed", response := apiResp
           errorData := ErrorData.parsed b }]) ∧
    (apiResp.ok = false → ∀ e, apiResp.body = Except.error e →
      (paypalRequest urlPath body host env).result =
        Except.error "PayPal payment rejected" ∧
      (paypalRequest urlPath body host env).logs =
        [{ label := "PayPal payment failed", response := apiResp
           errorData := ErrorData.parseFailure e }]) ∧
    (apiResp.ok = false → (paypalRequest urlPath body host env).result.isOk = false) ∧
    (apiResp.ok = true → ∀ b, apiResp.body = Except.ok b →
      (paypalRequest urlPath body host env).result = Except.ok b) := by
  refine ⟨?_, ?_, ?_, ?_⟩
  · intro hne b hb
    simp [paypalRequest, retrieveOAuthToken, paypalUrl, hp, hc, ht, hpath,
      htok, htokB, hapi, hne, hb]
  · intro hne e hb
    simp [paypalRequest, retrieveOAuthToken, paypalUrl, hp, hc, ht, hpath,
      htok, htokB, hapi, hne, hb]
  · intro hne
    cases hb : apiResp.body with
    | error e =>
        simp [paypalRequest, retrieveOAuthToken, paypalUrl, Except.isOk,
          Except.toBool, hp, hc, ht, hpath, htok, htokB, hapi, hne, hb]
    | ok b =>
        simp [paypalRequest, retrieveOAuthToken, paypalUrl, Except.isOk,
          Except.toBool, hp, hc, ht, hpath, htok, htokB, hapi, hne, hb]
  · intro hok b hb
    simp [paypalRequest, retrieveOAuthToken, paypalUrl, hp, hc, ht, hpath,
      htok, htokB, hapi, hok, hb]

/-- C6 witness: the classification theorem instantiated at the example host
and an environment whose payment call is declined with a JSON error
body. -/
theorem paypalRequest_error_classification_witness :
    (paypalRequest "payments/payment" "req2" hostEx envApiDeclinedEx).result =
      Except.error ("PayPal payment rejected" ++ ": " ++
        jsStringOfOpt (some "INSTRUMENT_DECLINED")) ∧
    (paypalRequest "payments/payment" "req2" hostEx envApiDeclinedEx).logs =
      [{ label := "PayPal payment failed", response := apiRespDeclinedEx
         errorData := ErrorData.parsed
           { message := some "INSTRUMENT_DECLINED", transactions := [] } }] :=
  (paypalRequest_error_classification "payments/payment" "req2" hostEx
      envApiDeclinedEx accountEx tokenRespOkEx
      { access_token := some "tok-123" } apiRespDeclinedEx
      rfl rfl rfl (by decide) rfl rfl rfl).1 rfl
    { message := some "INSTRUMENT_DECLINED", transactions := [] } rfl

/-- C7: for every configuration and path, a path that is absolute (starts
with a slash) makes paypalUrl raise instead of returning a URL, and a
relative path yields the environment base URL concatenated with the
path. -/
theorem paypalUrl_rejects_absolute (cfg : PaypalConfig) (path : String) :
    (jsStartsWith path "/" = true →
      paypalUrl cfg path = Except.error "Please don\x27t use absolute paths") ∧
    (jsStartsWith path "/" = false →
      paypalUrl cfg path = Except.ok (paypalBaseUrl cfg ++ path)) := by
  constructor <;> intro h <;> simp [paypalUrl, h]

/-- C7 witness: the rejection theorem instantiated at an absolute and at a
relative path. -/
theorem paypalUrl_rejects_absolute_witness :
    paypalUrl cfgProdEx "/oauth2/token" =
      Except.error "Please don\x27t use absolute paths" ∧
    paypalUrl cfgProdEx "oauth2/token" =
      Except.ok (paypalBaseUrl cfgProdEx ++ "oauth2/token") :=
  ⟨(paypalUrl_rejects_absolute cfgProdEx "/oauth2/token").1 (by decide),
   (paypalUrl_rejects_absolute cfgProdEx "oauth2/token").2 (by decide)⟩

/-- C8 counterexample: a non-2xx token-endpoint response whose JSON error
body lacks an access_token makes retrieveOAuthToken return undefined
with no error raised, refuting that every non-2xx response propagates as
an upstream authentication error. -/
theorem retrieveOAuthToken_non2xx_yields_undefined :
    (∃ resp, envTokenNon2xxEx.tokenFetch = Except.ok resp ∧ resp.ok = false) ∧
    (retrieveOAuthToken "client-id" "client-secret" envTokenNon2xxEx).snd =
      Except.ok none :=
  ⟨⟨_, rfl, rfl⟩, rfl⟩

/-- C8 (amended): retrieveOAuthToken sends grant_type=client_credentials
with Authorization Basic base64(clientId:clientSecret) and returns the
access_token field of whatever JSON body the token endpoint returns,
never consulting the HTTP status; only a network failure or a body parse
failure propagates, as a plain raised error. -/
theorem retrieveOAuthToken_request_and_outcome (clientId clientSecret : String)
    (env : PaypalEnv) :
    (retrieveOAuthToken clientId clientSecret env).fst =
      { url := paypalBaseUrl env.cfg ++ "oauth2/token"
        method := "post"
        body := "grant_type=client_credentials"
        authorization := "Basic " ++ base64Encode (clientId ++ ":" ++ clientSecret) } ∧
    (∀ e, env.tokenFetch = Except.error e →
      (retrieveOAuthToken clientId clientSecret env).snd = Except.error e) ∧
    (∀ resp, env.tokenFetch = Except.ok resp →
      (∀ e, resp.body = Except.error e →
        (retrieveOAuthToken clientId clientSecret env).snd = Except.error e) ∧
      (∀ b, resp.body = Except.ok b →
        (retrieveOAuthToken clientId clientSecret env).snd =
          Except.ok b.access_token)) := by
  refine ⟨rfl, ?_, ?_⟩
  · intro e he
    simp [retrieveOAuthToken, he]
  · intro resp hresp
    constructor
    · intro e hb
      simp [retrieveOAuthToken, hresp, hb]
    · intro b hb
      simp [retrieveOAuthToken, hresp, hb]

/-- C8 witness: the amended theorem instantiated at the example
credentials and the all-success environment. -/
theorem retrieveOAuthToken_request_and_outcome_witness :
    (retrieveOAuthToken "client-id" "client-secret" envOkEx).fst =
      { url := paypalBaseUrl envOkEx.cfg ++ "oauth2/token"
        method := "post"
        body := "grant_type=client_credentials"
        authorization :=
          "Basic " ++ base64Encode ("client-id" ++ ":" ++ "client-secret") } ∧
    (retrieveOAuthToken "client-id" "client-secret" envOkEx).snd =
      Except.ok (some "tok-123") :=
  ⟨(retrieveOAuthToken_request_and_outcome "client-id" "client-secret" envOkEx).1,
   ((retrieveOAuthToken_request_and_outcome "client-id" "client-secret"
       envOkEx).2.2 tokenRespOkEx rfl).2 { access_token := some "tok-123" } rfl⟩

/-- C9: processOrder is strictly sequential: its trace of awaited calls is
always a prefix of capture, transaction persistence, setting
Order.processedAt, setting PaymentMethod.confirmedAt, in that order; on
success the full trace ran, both timestamps are set and the persisted
transaction is returned; the timestamps are set only after the
transaction has been persisted (processedAt set implies a persisted
transaction, confirmedAt set implies processedAt set); and when the
capture fails, the building of the transaction fails, or its
persistence is rejected, neither timestamp is set and nothing is
persisted. (An update rejecting after persistence leaves the persisted
transaction with a thrown error: the partial-completion state, which
the model keeps expressible.) -/
theorem processOrder_sequential (order : Order) (env : ProcessEnv) :
    (∃ t, (processOrder order env).events ++ t =
      [OrderEvent.executePaymentCall, OrderEvent.persistTransaction,
       OrderEvent.setProcessedAt, OrderEvent.setConfirmedAt]) ∧
    ((processOrder order env).result.isOk = true →
      (processOrder order env).events =
        [OrderEvent.executePaymentCall, OrderEvent.persistTransaction,
         OrderEvent.setProcessedAt, OrderEvent.setConfirmedAt] ∧
      (processOrder order env).processedAtSet = true ∧
      (processOrder order env).confirmedAtSet = true ∧
      ∃ p, (processOrder order env).result = Except.ok p ∧
        (processOrder order env).createdTransactions = [p]) ∧
    ((processOrder order env).processedAtSet = true →
      ∃ p, (processOrder order env).createdTransactions = [p]) ∧
    ((processOrder order env).confirmedAtSet = true →
      (processOrder order env).processedAtSet = true) ∧
    (∀ e, (executePayment order env.paypal).result = Except.error e →
      (processOrder order env).processedAtSet = false ∧
      (processOrder order env).confirmedAtSet = false ∧
      (processOrder order env).createdTransactions = []) ∧
    (∀ pi, (executePayment order env.paypal).result = Except.ok pi →
      ∀ e, createTransaction order pi = Except.error e →
      (processOrder order env).processedAtSet = false ∧
      (processOrder order env).confirmedAtSet = false ∧
      (processOrder order env).createdTransactions = []) ∧
    (env.persistOk = false →
      (processOrder order env).processedAtSet = false ∧
      (processOrder order env).confirmedAtSet = false ∧
      (processOrder order env).createdTransactions = []) := by
  rcases hgw : (executePayment order env.paypal).result with e0 | paymentInfo
  · simp only [processOrder, hgw]
    refine ⟨⟨_, rfl⟩, ?_⟩
    simp [hgw, Except.isOk, Except.toBool]
  · rcases hct : createTransaction order paymentInfo with e1 | payload
    · simp only [processOrder, hgw, hct]
      refine ⟨⟨_, rfl⟩, ?_⟩
      simp [hgw, hct, Except.isOk, Except.toBool]
    · cases hp : env.persistOk with
      | false =>
          simp only [processOrder, hgw, hct, hp]
          refine ⟨⟨_, rfl⟩, ?_⟩
          simp [hgw, hct, hp, Except.isOk, Except.toBool]
      | true =>
          cases hou : env.orderUpdateOk with
          | false =>
              simp only [processOrder, hgw, hct, hp, hou]
              refine ⟨⟨_, rfl⟩, ?_⟩
              simp [hgw, hct, hp, hou, Except.isOk, Except.toBool]
          | true =>
              cases hpu : env.paymentMethodUpdateOk with
              | false =>
                  simp only [processOrder, hgw, hct, hp, hou, hpu]
                  refine ⟨⟨_, rfl⟩, ?_⟩
                  simp [hgw, hct, hp, hou, hpu, Except.isOk, Except.toBool]
              | true =>
                  simp only [processOrder, hgw, hct, hp, hou, hpu]
                  refine ⟨⟨_, rfl⟩, ?_⟩
                  simp [hgw, hct, hp, hou, hpu, Except.isOk, Except.toBool]

/-- C9 witness: the sequencing theorem instantiated at the example order
and the all-success environment. -/
theorem processOrder_sequential_witness :
    (processOrder orderEx processEnvOkEx).events =
      [OrderEvent.executePaymentCall, OrderEvent.persistTransaction,
       OrderEvent.setProcessedAt, OrderEvent.setConfirmedAt] ∧
    (processOrder orderEx processEnvOkEx).processedAtSet = true ∧
    (processOrder orderEx processEnvOkEx).confirmedAtSet = true ∧
    ∃ p, (processOrder orderEx processEnvOkEx).result = Except.ok p ∧
      (processOrder orderEx processEnvOkEx).createdTransactions = [p] :=
  (processOrder_sequential orderEx processEnvOkEx).2.1 rfl

/-- C10: environment selection is a two-way branch on exact equality with
sandbox: that value selects the sandbox base URL and every other
configuration value (unset, empty or misspelled) selects the production
base URL, never an error. -/
theorem paypalUrl_environment_two_way (cfg : PaypalConfig) (path : String)
    (h : jsStartsWith path "/" = false) :
    paypalUrl cfg path =
      Except.ok ((if cfg.environment = some "sandbox"
        then "https://api.sandbox.paypal.com/v1/"
        else "https://api.paypal.com/v1/") ++ path) ∧
    (cfg.environment = some "sandbox" →
      paypalUrl cfg path =
        Except.ok ("https://api.sandbox.paypal.com/v1/" ++ path)) ∧
    (cfg.environment ≠ some "sandbox" →
      paypalUrl cfg path = Except.ok ("https://api.paypal.com/v1/" ++ path)) := by
  refine ⟨?_, ?_, ?_⟩
  · simp [paypalUrl, paypalBaseUrl, h]
  · intro hs
    simp [paypalUrl, paypalBaseUrl, h, hs]
  · intro hs
    simp [paypalUrl, paypalBaseUrl, h, hs]

/-- C10 witness: the branch theorem instantiated at the sandbox value, at a
misspelled value and at an unset value. -/
theorem paypalUrl_environment_two_way_witness :
    paypalUrl { environment := some "sandbox" } "oauth2/token" =
      Except.ok ("https://api.sandbox.paypal.com/v1/" ++ "oauth2/token") ∧
    paypalUrl { environment := some "sandbx" } "oauth2/token" =
      Except.ok ("https://api.paypal.com/v1/" ++ "oauth2/token") ∧
    paypalUrl { environment := none } "oauth2/token" =
      Except.ok ("https://api.paypal.com/v1/" ++ "oauth2/token") :=
  ⟨(paypalUrl_environment_two_way { environment := some "sandbox" }
      "oauth2/token" (by decide)).2.1 rfl,
   (paypalUrl_environment_two_way { environment := some "sandbx" }
      "oauth2/token" (by decide)).2.2 (by decide),
   (paypalUrl_environment_two_way { environment := none }
      "oauth2/token" (by decide)).2.2 (by decide)⟩
